import Mathlib

/-!
Shallow embedding of the parameter-validation engine (`src/utils/validation.js`)
and the image-retention sweep (`cleanupOldImages` in the cleanup utility) of the
openai-image-gen-mcp service, together with theorems settling the specification
claims about them.

JavaScript conventions modelled explicitly:
  * a JS value reaching the validators is `undefined`, `null`, a boolean, a
    number (an integer, a non-integer finite number, or NaN), or a string;
  * falsiness (`!x`) and `Boolean(x)` coercion follow JS truthiness;
  * `parseInt(s, 10)` skips leading whitespace, reads an optional sign and a
    maximal run of decimal digits, and yields NaN when there are no digits;
  * `Array.prototype.includes` on arrays of strings / file records is value
    equality (records in a directory listing are pairwise distinct, so value
    equality coincides with JS reference identity there);
  * string length is counted in characters (faithful for BMP strings).
-/

/-- Whitespace recognised by the JS `trim` / `parseInt` used in the source. -/
def jsWhitespace (c : Char) : Bool :=
  c == ' ' || c == '\t' || c == '\n' || c == '\r' || c == '\x0b' || c == '\x0c'

/-- Embedding of `String.prototype.trim`: strip leading and trailing whitespace. -/
def jsTrim (s : String) : String :=
  ⟨((s.data.dropWhile jsWhitespace).reverse.dropWhile jsWhitespace).reverse⟩

/-- Embedding of `s.length` (character count). -/
def jsLength (s : String) : Nat := s.data.length

/-- Value of a maximal run of decimal digits. -/
def digitsToNat (ds : List Char) : Nat := ds.foldl (fun a c => a * 10 + (c.toNat - 48)) 0

/-- Embedding of `parseInt(s, 10)`: `none` models a NaN result. -/
def jsParseInt (s : String) : Option Int :=
  let cs := s.data.dropWhile jsWhitespace
  let signed : Int × List Char :=
    match cs with
    | '-' :: rest => (-1, rest)
    | '+' :: rest => (1, rest)
    | _ => (1, cs)
  let ds := signed.2.takeWhile (fun c => c.isDigit)
  if ds.isEmpty then none else some (signed.1 * (digitsToNat ds : Int))

/-- A JavaScript value as it can reach the validators. -/
inductive JSValue where
  | undefined
  | null
  | boolean (b : Bool)
  | intNum (i : Int)
  | nonIntNum
  | nanNum
  | str (s : String)
deriving DecidableEq, Repr

/-- JS truthiness (`Boolean(v)`); a non-integer finite number is nonzero, hence truthy. -/
def truthy : JSValue → Bool
  | .undefined => false
  | .null => false
  | .boolean b => b
  | .intNum i => i != 0
  | .nonIntNum => true
  | .nanNum => false
  | .str s => s != ""

/-- Embedding of the `ValidationError` class: a message plus the offending field. -/
structure ValidationError where
  message : String
  field : String
deriving DecidableEq, Repr

/-- Allowed sizes per model (`VALIDATION_RULES.size.modelConstraints`). -/
def sizeModelConstraints : String → Option (List String)
  | "dall-e-2" => some ["256x256", "512x512", "1024x1024"]
  | "dall-e-3" => some ["1024x1024", "1792x1024", "1024x1792"]
  | _ => none

/-- Allowed qualities per model (`VALIDATION_RULES.quality.modelConstraints`). -/
def qualityModelConstraints : String → Option (List String)
  | "dall-e-3" => some ["standard", "hd"]
  | "dall-e-2" => some ["standard"]
  | _ => none

/-- Allowed styles per model (`VALIDATION_RULES.style.modelConstraints`).
The outer `Option` is key presence; `some none` embeds the explicit JS `null`
recorded for dall-e-2 (style unsupported). -/
def styleModelConstraints : String → Option (Option (List String))
  | "dall-e-3" => some (some ["vivid", "natural"])
  | "dall-e-2" => some none
  | _ => none

/-- Allowed range for `n` per model (`VALIDATION_RULES.n.modelConstraints`),
with the rule-level `min`/`max` as fallback (the JS `|| { min, max }`). -/
def nModelConstraints (model : String) : Int × Int :=
  match model with
  | "dall-e-2" => (1, 10)
  | "dall-e-3" => (1, 1)
  | _ => (1, 10)

/-- Embedding of `validatePrompt`: required check, type check, raw-length bounds
against `minLength = 1` / `maxLength = 4000`, then the whitespace-only check on
the trimmed prompt; returns the trimmed prompt. -/
def validatePrompt (prompt : JSValue) : Except ValidationError String :=
  if prompt == .undefined || prompt == .null || prompt == .str "" then
    .error ⟨"Prompt is required", "prompt"⟩
  else
    match prompt with
    | .str s =>
      if jsLength s < 1 then
        .error ⟨"Prompt must be at least 1 character", "prompt"⟩
      else if jsLength s > 4000 then
        .error ⟨"Prompt must not exceed 4000 characters", "prompt"⟩
      else if jsLength (jsTrim s) == 0 then
        .error ⟨"Prompt cannot be empty or only whitespace", "prompt"⟩
      else
        .ok (jsTrim s)
    | _ => .error ⟨"Prompt must be a string", "prompt"⟩

/-- Embedding of `validateModel`: falsy input yields the default model; a truthy
value must be one of the model enum (a non-string truthy value fails the
`includes` test and is rejected). -/
def validateModel (model : JSValue) : Except ValidationError String :=
  if truthy model = false then .ok "dall-e-3"
  else
    match model with
    | .str s =>
      if s ∈ ["dall-e-2", "dall-e-3"] then .ok s
      else .error ⟨"Model must be one of: dall-e-2, dall-e-3", "model"⟩
    | _ => .error ⟨"Model must be one of: dall-e-2, dall-e-3", "model"⟩

/-- Embedding of `validateSize`: falsy input yields the default size, a truthy
value must pass the global enum and then the model-specific constraint. -/
def validateSize (size : JSValue) (model : String) : Except ValidationError String :=
  if truthy size = false then .ok "1024x1024"
  else
    match size with
    | .str s =>
      if s ∈ ["256x256", "512x512", "1024x1024", "1792x1024", "1024x1792"] then
        match sizeModelConstraints model with
        | some allowed =>
          if s ∈ allowed then .ok s
          else .error ⟨"Size is not supported for this model", "size"⟩
        | none => .ok s
      else .error ⟨"Size must be one of the allowed sizes", "size"⟩
    | _ => .error ⟨"Size must be one of the allowed sizes", "size"⟩

/-- Embedding of `validateQuality`: falsy input yields the default quality, a
truthy value must pass the global enum and then the model-specific constraint. -/
def validateQuality (quality : JSValue) (model : String) : Except ValidationError String :=
  if truthy quality = false then .ok "standard"
  else
    match quality with
    | .str s =>
      if s ∈ ["standard", "hd"] then
        match qualityModelConstraints model with
        | some allowed =>
          if s ∈ allowed then .ok s
          else .error ⟨"Quality is not supported for this model", "quality"⟩
        | none => .ok s
      else .error ⟨"Quality must be one of: standard, hd", "quality"⟩
    | _ => .error ⟨"Quality must be one of: standard, hd", "quality"⟩

/-- Embedding of `validateStyle`: when the model constraint is the explicit JS
`null` (dall-e-2) any supplied style is dropped and `none` (JS `null`) is
returned; otherwise a falsy style yields the default `vivid`, and a truthy
style must pass the enum and the model constraint. -/
def validateStyle (style : JSValue) (model : String) : Except ValidationError (Option String) :=
  if styleModelConstraints model == some none then
    .ok none
  else if truthy style = false then
    .ok (some "vivid")
  else
    match style with
    | .str s =>
      if s ∈ ["vivid", "natural"] then
        match styleModelConstraints model with
        | some (some allowed) =>
          if s ∈ allowed then .ok (some s)
          else .error ⟨"Style is not supported for this model", "style"⟩
        | _ => .ok (some s)
      else .error ⟨"Style must be one of: vivid, natural", "style"⟩
    | _ => .error ⟨"Style must be one of: vivid, natural", "style"⟩

/-- Embedding of `validateN`: `undefined`/`null` yield the default `1`; a string
is coerced with `parseInt`; anything that is not an integer after coercion
(NaN from parsing, a non-integer number, NaN, a boolean) is rejected; finally
the model-specific range is enforced. -/
def validateN (n : JSValue) (model : String) : Except ValidationError Int :=
  if n == .undefined || n == .null then .ok 1
  else
    match (match n with
           | .str s => jsParseInt s
           | .intNum i => some i
           | _ => none) with
    | none => .error ⟨"n must be an integer", "n"⟩
    | some v =>
      if v < (nModelConstraints model).1 || v > (nModelConstraints model).2 then
        .error ⟨"n is out of range for this model", "n"⟩
      else .ok v

/-- Raw request parameters: a JS object modelled as an association list. -/
def RawParams := List (String × JSValue)

/-- Property access `params.key`: an absent property reads as `undefined`. -/
def getField (params : RawParams) (key : String) : JSValue :=
  match List.find? (fun kv => kv.1 == key) params with
  | some kv => kv.2
  | none => .undefined

/-- The validated-parameter object built by `validateImageGenerationParams`;
`none` in `style` / `save` / `response_format` means the key is absent. -/
structure ValidatedParams where
  prompt : String
  model : String
  size : String
  quality : String
  n : Int
  style : Option String
  save : Option Bool
  response_format : Option String
deriving DecidableEq, Repr

/-- The `save` pass-through: absent stays absent, anything else is coerced with
`Boolean(...)`. -/
def saveOf (v : JSValue) : Option Bool :=
  match v with
  | .undefined => none
  | w => some (truthy w)

/-- Embedding of `validateImageGenerationParams`: the validators run in source
order, the first thrown `ValidationError` aborts, and on success the result
object is assembled field by field. -/
def validateImageGenerationParams (params : RawParams) : Except ValidationError ValidatedParams :=
  match validatePrompt (getField params "prompt") with
  | .error e => .error e
  | .ok prompt =>
    match validateModel (getField params "model") with
    | .error e => .error e
    | .ok model =>
      match validateSize (getField params "size") model with
      | .error e => .error e
      | .ok size =>
        match validateQuality (getField params "quality") model with
        | .error e => .error e
        | .ok quality =>
          match validateN (getField params "n") model with
          | .error e => .error e
          | .ok n =>
            match validateStyle (getField params "style") model with
            | .error e => .error e
            | .ok style =>
              match getField params "response_format" with
              | .undefined =>
                .ok { prompt := prompt, model := model, size := size, quality := quality,
                      n := n, style := style, save := saveOf (getField params "save"),
                      response_format := none }
              | .str s =>
                if s ∈ ["url", "b64_json"] then
                  .ok { prompt := prompt, model := model, size := size, quality := quality,
                        n := n, style := style, save := saveOf (getField params "save"),
                        response_format := some s }
                else .error ⟨"response_format must be either url or b64_json", "response_format"⟩
              | _ => .error ⟨"response_format must be either url or b64_json", "response_format"⟩

/-- Keys of the validated object, in the insertion order of
`validateImageGenerationParams`: the five unconditional fields, then the three
conditional ones when present. -/
def keysOf (v : ValidatedParams) : List String :=
  ["prompt", "model", "size", "quality", "n"]
    ++ (if v.style.isSome then ["style"] else [])
    ++ (if v.save.isSome then ["save"] else [])
    ++ (if v.response_format.isSome then ["response_format"] else [])

/-- Default retention period of the cleanup utility: 7 days in milliseconds. -/
def DEFAULT_RETENTION_MS : Nat := 7 * 24 * 60 * 60 * 1000

/-- A stat-ed image file as collected by `getImageFiles`: name, byte size and
modification time (milliseconds since the epoch). Its `age` at sweep time
`now` is `now - modified`. -/
structure FileRec where
  name : String
  size : Nat
  modified : Int
deriving DecidableEq, Repr

/-- Age of a file at sweep time `now` (`Date.now() - stats.mtime`). -/
def ageOf (now : Int) (f : FileRec) : Int := now - f.modified

/-- Options accepted by `cleanupOldImages`; `none` models an absent option. -/
structure CleanupOptions where
  retentionMs : Option Nat := none
  dryRun : Bool := false
  maxFiles : Option Nat := none

/-- The JS `options.retentionMs || DEFAULT_RETENTION_MS` (0 is falsy). -/
def resolveRetentionMs (o : Option Nat) : Nat :=
  match o with
  | some v => if v == 0 then DEFAULT_RETENTION_MS else v
  | none => DEFAULT_RETENTION_MS

/-- The JS `options.maxFiles || null` (0 is falsy, hence treated as unset). -/
def resolveMaxFiles (o : Option Nat) : Option Nat :=
  match o with
  | some v => if v == 0 then none else some v
  | none => none

/-- The result object of `cleanupOldImages`. -/
structure CleanupResult where
  success : Bool
  filesScanned : Nat
  filesDeleted : Nat
  spaceFreed : Nat
  errors : List (String × String)
  deletedFiles : List (String × Nat × Int)
deriving DecidableEq, Repr

/-- One step of `imageFiles.sort((a, b) => a.modified - b.modified)`: insert
into an already sorted list, before the first strictly later element (a stable
ascending sort, as JS `Array.prototype.sort` is). -/
def orderedInsertFile (f : FileRec) : List FileRec → List FileRec
  | [] => [f]
  | g :: gs => if f.modified ≤ g.modified then f :: g :: gs else g :: orderedInsertFile f gs

/-- Stable sort of the scanned files by modification time, oldest first. -/
def sortByModified : List FileRec → List FileRec
  | [] => []
  | f :: fs => orderedInsertFile f (sortByModified fs)

/-- The push loop over the excess candidates: each candidate is appended unless
`filesToDelete.includes(...)` already holds for the growing list. -/
def addExcess : List FileRec → List FileRec → List FileRec
  | acc, [] => acc
  | acc, c :: cs => addExcess (if c ∈ acc then acc else acc ++ [c]) cs

/-- Deletion-set construction of `cleanupOldImages` over the sorted file list:
first every file older than the retention period, then, when `maxFiles` is set
and exceeded, the oldest not-yet-marked files up to the excess count. -/
def selectFilesToDelete (imageFiles : List FileRec) (now : Int) (retentionMs : Nat)
    (maxFiles : Option Nat) : List FileRec :=
  let aged := imageFiles.filter (fun f => decide (ageOf now f > (retentionMs : Int)))
  match maxFiles with
  | some mf =>
    if imageFiles.length > mf then
      let excessCount := imageFiles.length - mf
      let notMarked := imageFiles.filter (fun f => decide (f ∉ aged))
      addExcess aged (notMarked.take excessCount)
    else aged
  | none => aged

/-- One iteration of the deletion loop: when not in dry-run mode a failing
`unlink` records a per-file error and nothing else; otherwise the counters and
the deleted-files log are updated. The `unlinkFails` oracle says which file
names the filesystem refuses to delete. -/
def deleteStep (dryRun : Bool) (now : Int) (unlinkFails : String → Bool)
    (st : CleanupResult) (f : FileRec) : CleanupResult :=
  if !dryRun && unlinkFails f.name then
    { st with errors := st.errors ++ [(f.name, "unlink failed")] }
  else
    { st with filesDeleted := st.filesDeleted + 1,
              spaceFreed := st.spaceFreed + f.size,
              deletedFiles := st.deletedFiles ++ [(f.name, f.size, ageOf now f)] }

/-- Embedding of `cleanupOldImages`. The directory is `none` when it does not
exist, otherwise the list of stat-ed image files. The returned pair is the
`CleanupResult` and the directory state after the sweep (the files whose
deletion was actually performed and succeeded are removed). -/
def cleanupOldImages (dir : Option (List FileRec)) (now : Int)
    (unlinkFails : String → Bool) (options : CleanupOptions) :
    CleanupResult × Option (List FileRec) :=
  let retentionMs := resolveRetentionMs options.retentionMs
  let dryRun := options.dryRun
  let maxFiles := resolveMaxFiles options.maxFiles
  match dir with
  | none =>
    ({ success := true, filesScanned := 0, filesDeleted := 0, spaceFreed := 0,
       errors := [], deletedFiles := [] }, none)
  | some files =>
    let imageFiles := sortByModified files
    let filesToDelete := selectFilesToDelete imageFiles now retentionMs maxFiles
    let init : CleanupResult :=
      { success := true, filesScanned := imageFiles.length, filesDeleted := 0,
        spaceFreed := 0, errors := [], deletedFiles := [] }
    let res := filesToDelete.foldl (deleteStep dryRun now unlinkFails) init
    let res := if res.errors.length > 0 then { res with success := false } else res
    let deletedNames : List String :=
      if dryRun then []
      else (filesToDelete.filter (fun f => !unlinkFails f.name)).map (fun f => f.name)
    (res, some (files.filter (fun f => decide (f.name ∉ deletedNames))))

/-- A JS value that `validateN` can coerce to an integer: an integer number,
or a string `parseInt` parses. Everything else makes `validateN` throw the
integer type error. -/
def intCoercible : JSValue → Bool
  | .intNum _ => true
  | .str s => (jsParseInt s).isSome
  | _ => false

theorem validateModel_ok {v : JSValue} {m : String} (h : validateModel v = .ok m) :
    m = "dall-e-2" ∨ m = "dall-e-3" := by
  unfold validateModel at h
  split at h
  · exact Or.inr (by cases h; rfl)
  · split at h
    · split at h
      · cases h; simp_all
      · exact absurd h (by simp)
    · exact absurd h (by simp)

theorem validateSize_ok {v : JSValue} {m s : String} (h : validateSize v m = .ok s) :
    (m = "dall-e-2" → s ∈ ["256x256", "512x512", "1024x1024"]) ∧
    (m = "dall-e-3" → s ∈ ["1024x1024", "1792x1024", "1024x1792"]) := by
  unfold validateSize at h
  split at h
  · cases h; constructor <;> intro <;> simp
  · split at h
    · split at h
      · split at h
        · split at h
          · cases h
            constructor <;> intro hm <;> subst hm <;> simp_all [sizeModelConstraints]
          · exact absurd h (by simp)
        · cases h
          constructor <;> intro hm <;> subst hm <;> simp_all [sizeModelConstraints]
      · exact absurd h (by simp)
    · exact absurd h (by simp)

theorem validateQuality_ok {v : JSValue} {m q : String} (h : validateQuality v m = .ok q) :
    (m = "dall-e-2" → q = "standard") ∧ (q = "standard" ∨ q = "hd") := by
  unfold validateQuality at h
  split at h
  · cases h; exact ⟨fun _ => rfl, Or.inl rfl⟩
  · split at h
    · split at h
      · split at h
        · split at h
          · cases h
            constructor
            · intro hm; subst hm; simp_all [qualityModelConstraints]; subst_vars; simp_all
            · simp_all
          · exact absurd h (by simp)
        · cases h
          constructor
          · intro hm; subst hm; simp_all [qualityModelConstraints]
          · simp_all
      · exact absurd h (by simp)
    · exact absurd h (by simp)

theorem validateStyle_ok {v : JSValue} {m : String} {st : Option String}
    (h : validateStyle v m = .ok st) :
    (m = "dall-e-2" → st = none) ∧
    (m = "dall-e-3" → st = some "vivid" ∨ st = some "natural") := by
  unfold validateStyle at h
  split at h
  · cases h
    constructor
    · intro hm; rfl
    · intro hm; subst hm; simp_all [styleModelConstraints]
  · split at h
    · cases h
      constructor
      · intro hm; subst hm; simp_all [styleModelConstraints]
      · intro hm; exact Or.inl rfl
    · split at h
      · split at h
        · split at h
          · split at h
            · cases h
              constructor
              · intro hm; subst hm; simp_all [styleModelConstraints]
              · intro hm; subst hm; simp_all [styleModelConstraints]
            · exact absurd h (by simp)
          · cases h
            constructor
            · intro hm; subst hm; simp_all [styleModelConstraints]
            · intro hm; subst hm; simp_all [styleModelConstraints]
        · exact absurd h (by simp)
      · exact absurd h (by simp)

theorem validateN_ok {v : JSValue} {m : String} {k : Int} (h : validateN v m = .ok k) :
    (m = "dall-e-2" → 1 ≤ k ∧ k ≤ 10) ∧ (m = "dall-e-3" → k = 1) := by
  unfold validateN at h
  split at h
  · cases h; exact ⟨fun _ => by norm_num, fun _ => rfl⟩
  · split at h
    · exact absurd h (by simp)
    · split at h
      · exact absurd h (by simp)
      · cases h
        rename_i hrange
        constructor <;> intro hm <;> subst hm <;> simp_all [nModelConstraints]

theorem validateParams_ok_inv {params : RawParams} {v : ValidatedParams}
    (h : validateImageGenerationParams params = .ok v) :
    validatePrompt (getField params "prompt") = .ok v.prompt ∧
    validateModel (getField params "model") = .ok v.model ∧
    validateSize (getField params "size") v.model = .ok v.size ∧
    validateQuality (getField params "quality") v.model = .ok v.quality ∧
    validateN (getField params "n") v.model = .ok v.n ∧
    validateStyle (getField params "style") v.model = .ok v.style ∧
    v.save = saveOf (getField params "save") ∧
    ((getField params "response_format" = .undefined ∧ v.response_format = none) ∨
     (∃ s, getField params "response_format" = JSValue.str s ∧ s ∈ ["url", "b64_json"] ∧
        v.response_format = some s)) := by
  unfold validateImageGenerationParams at h
  split at h
  · exact absurd h (by simp)
  · split at h
    · exact absurd h (by simp)
    · split at h
      · exact absurd h (by simp)
      · split at h
        · exact absurd h (by simp)
        · split at h
          · exact absurd h (by simp)
          · split at h
            · exact absurd h (by simp)
            · split at h
              · cases h
                refine ⟨?_, ?_, ?_, ?_, ?_, ?_, rfl, Or.inl ⟨?_, rfl⟩⟩ <;> simp_all
              · split at h
                · cases h
                  rename_i s hrf hmem
                  exact ⟨by simp_all, by simp_all, by simp_all, by simp_all, by simp_all,
                         by simp_all, rfl, Or.inr ⟨s, hrf, hmem, rfl⟩⟩
                · exact absurd h (by simp)
              · exact absurd h (by simp)

/-- C1: every successful `validateImageGenerationParams` run yields parameters
that are model-consistent per the capability table: the model is dall-e-2 or
dall-e-3, the size lies in that model's allowed-size set, quality is
`standard` whenever the model is dall-e-2, a style field is present only for
dall-e-3 and then is `vivid` or `natural`, and `n` lies in the model's range
(1-10 for dall-e-2, exactly 1 for dall-e-3). -/
theorem C1_model_consistency {params : RawParams} {v : ValidatedParams}
    (h : validateImageGenerationParams params = .ok v) :
    (v.model = "dall-e-2" ∨ v.model = "dall-e-3") ∧
    (v.model = "dall-e-2" → v.size ∈ ["256x256", "512x512", "1024x1024"]) ∧
    (v.model = "dall-e-3" → v.size ∈ ["1024x1024", "1792x1024", "1024x1792"]) ∧
    (v.model = "dall-e-2" → v.quality = "standard") ∧
    (∀ s, v.style = some s → v.model = "dall-e-3" ∧ (s = "vivid" ∨ s = "natural")) ∧
    (v.model = "dall-e-2" → 1 ≤ v.n ∧ v.n ≤ 10) ∧
    (v.model = "dall-e-3" → v.n = 1) := by
  obtain ⟨hp, hm, hs, hq, hn, hst, _, _⟩ := validateParams_ok_inv h
  have hmm := validateModel_ok hm
  have hss := validateSize_ok hs
  have hqq := validateQuality_ok hq
  have hnn := validateN_ok hn
  have hstst := validateStyle_ok hst
  refine ⟨hmm, hss.1, hss.2, hqq.1, ?_, hnn.1, hnn.2⟩
  intro s hsome
  rcases hmm with h2 | h3
  · rw [hstst.1 h2] at hsome; cases hsome
  · refine ⟨h3, ?_⟩
    rcases hstst.2 h3 with hv | hn2 <;> simp_all

/-- Witness for C1 at the concrete request with only a prompt supplied. -/
theorem C1_model_consistency_witness :
    validateImageGenerationParams [("prompt", JSValue.str "x")] =
      .ok { prompt := "x", model := "dall-e-3", size := "1024x1024", quality := "standard",
            n := 1, style := some "vivid", save := none, response_format := none } ∧
    (("dall-e-3" = "dall-e-2" ∨ "dall-e-3" = "dall-e-3") ∧
     ("dall-e-3" = "dall-e-2" → "1024x1024" ∈ ["256x256", "512x512", "1024x1024"]) ∧
     ("dall-e-3" = "dall-e-3" → "1024x1024" ∈ ["1024x1024", "1792x1024", "1024x1792"]) ∧
     ("dall-e-3" = "dall-e-2" → "standard" = "standard") ∧
     (∀ s, some "vivid" = some s → "dall-e-3" = "dall-e-3" ∧ (s = "vivid" ∨ s = "natural")) ∧
     ("dall-e-3" = "dall-e-2" → 1 ≤ (1 : Int) ∧ (1 : Int) ≤ 10) ∧
     ("dall-e-3" = "dall-e-3" → (1 : Int) = 1)) :=
  ⟨rfl, @C1_model_consistency [("prompt", JSValue.str "x")]
    { prompt := "x", model := "dall-e-3", size := "1024x1024", quality := "standard",
      n := 1, style := some "vivid", save := none, response_format := none } rfl⟩

theorem jsTrim_length_le (s : String) : jsLength (jsTrim s) ≤ jsLength s := by
  unfold jsTrim jsLength
  simp only [List.length_reverse]
  calc (((s.data.dropWhile jsWhitespace).reverse.dropWhile jsWhitespace)).length
      ≤ (s.data.dropWhile jsWhitespace).reverse.length := (List.dropWhile_sublist _).length_le
    _ = (s.data.dropWhile jsWhitespace).length := List.length_reverse _
    _ ≤ s.data.length := (List.dropWhile_sublist _).length_le

theorem validatePrompt_success {s : String} (h1 : jsLength s ≤ 4000)
    (h2 : 1 ≤ jsLength (jsTrim s)) : validatePrompt (.str s) = .ok (jsTrim s) := by
  have hle := jsTrim_length_le s
  have hpos : 1 ≤ jsLength s := le_trans h2 hle
  have hne : ¬ s = "" := by
    intro he; subst he; simp [jsLength] at hpos
  have c1 : ¬ (jsLength s < 1) := by omega
  have c2 : ¬ (jsLength s > 4000) := by omega
  have c3 : ¬ (jsLength (jsTrim s) = 0) := by omega
  simp [validatePrompt, hne, c1, c2, c3]

/-- C4 (amended): for every request supplying only a prompt, a string of raw
length at most 4000 whose trimmed length is at least 1, validation succeeds
and the returned prompt is the trimmed input; the empty prompt and a
whitespace-only prompt both fail with field `prompt`. (The raw-length bound
replaces the claimed trimmed-length bound: the source checks `prompt.length`
against the 4000 maximum before trimming.) -/
theorem C4_prompt_acceptance {s : String} (h1 : jsLength s ≤ 4000)
    (h2 : 1 ≤ jsLength (jsTrim s)) :
    validateImageGenerationParams [("prompt", JSValue.str s)] =
      .ok { prompt := jsTrim s, model := "dall-e-3", size := "1024x1024",
            quality := "standard", n := 1, style := some "vivid", save := none,
            response_format := none } ∧
    (∃ e, validateImageGenerationParams [("prompt", JSValue.str "")] = .error e ∧
       e.field = "prompt") ∧
    (∃ e, validateImageGenerationParams [("prompt", JSValue.str "   ")] = .error e ∧
       e.field = "prompt") := by
  refine ⟨?_, ⟨⟨"Prompt is required", "prompt"⟩, rfl, rfl⟩,
          ⟨⟨"Prompt cannot be empty or only whitespace", "prompt"⟩, rfl, rfl⟩⟩
  have hp : validatePrompt (getField [("prompt", JSValue.str s)] "prompt") = .ok (jsTrim s) :=
    validatePrompt_success h1 h2
  unfold validateImageGenerationParams
  rw [hp]
  rfl

theorem dropWhile_replicate_space (n : Nat) :
    List.dropWhile jsWhitespace (List.replicate n ' ' ++ ['x']) = ['x'] := by
  induction n with
  | zero => rfl
  | succ k ih =>
    rw [List.replicate_succ, List.cons_append, List.dropWhile_cons,
        if_pos (show jsWhitespace ' ' = true from rfl)]
    exact ih

theorem validatePrompt_too_long {s : String} (hne : s ≠ "") (hlen : 4000 < jsLength s) :
    validatePrompt (.str s) =
      .error ⟨"Prompt must not exceed 4000 characters", "prompt"⟩ := by
  have c1 : ¬ (jsLength s < 1) := by omega
  simp [validatePrompt, hne, c1, hlen]

theorem jsTrim_x_spaces :
    jsTrim (⟨'x' :: List.replicate 4000 ' '⟩ : String) = ⟨['x']⟩ := by
  unfold jsTrim
  have h0 : (⟨'x' :: List.replicate 4000 ' '⟩ : String).data = 'x' :: List.replicate 4000 ' ' := rfl
  rw [h0, List.dropWhile_cons]
  simp only [show jsWhitespace 'x' = false from rfl, Bool.false_eq_true, if_false,
    List.reverse_cons, List.reverse_replicate, dropWhile_replicate_space]
  rfl

/-- C4 counterexample: the prompt `"x"` followed by 4000 spaces has trimmed
length 1 (within the claimed 1..4000 trimmed range), yet validation fails,
because the source compares the untrimmed length against the 4000 maximum. -/
theorem C4_prompt_acceptance_counterexample :
    jsLength (jsTrim (⟨'x' :: List.replicate 4000 ' '⟩ : String)) = 1 ∧
    jsLength (⟨'x' :: List.replicate 4000 ' '⟩ : String) = 4001 ∧
    validateImageGenerationParams
        [("prompt", JSValue.str ⟨'x' :: List.replicate 4000 ' '⟩)] =
      .error ⟨"Prompt must not exceed 4000 characters", "prompt"⟩ := by
  have hlen : jsLength (⟨'x' :: List.replicate 4000 ' '⟩ : String) = 4001 := by
    show ('x' :: List.replicate 4000 ' ').length = 4001
    rw [List.length_cons, List.length_replicate]
  refine ⟨by rw [jsTrim_x_spaces]; rfl, hlen, ?_⟩
  have hne : ¬ (⟨'x' :: List.replicate 4000 ' '⟩ : String) = "" := by
    intro he
    have h2 := congrArg String.data he
    exact List.cons_ne_nil _ _ h2
  have hvp : validatePrompt (.str ⟨'x' :: List.replicate 4000 ' '⟩) =
      .error ⟨"Prompt must not exceed 4000 characters", "prompt"⟩ :=
    validatePrompt_too_long hne (by rw [hlen]; norm_num)
  have hvp2 : validatePrompt
      (getField [("prompt", JSValue.str ⟨'x' :: List.replicate 4000 ' '⟩)] "prompt") =
      .error ⟨"Prompt must not exceed 4000 characters", "prompt"⟩ := hvp
  unfold validateImageGenerationParams
  rw [hvp2]

/-- Witness for the amended C4 theorem at the concrete prompt `"ok"`. -/
theorem C4_prompt_acceptance_witness :
    jsLength "ok" ≤ 4000 ∧ 1 ≤ jsLength (jsTrim "ok") ∧
    (validateImageGenerationParams [("prompt", JSValue.str "ok")] =
      .ok { prompt := jsTrim "ok", model := "dall-e-3", size := "1024x1024",
            quality := "standard", n := 1, style := some "vivid", save := none,
            response_format := none } ∧
    (∃ e, validateImageGenerationParams [("prompt", JSValue.str "")] = .error e ∧
       e.field = "prompt") ∧
    (∃ e, validateImageGenerationParams [("prompt", JSValue.str "   ")] = .error e ∧
       e.field = "prompt")) :=
  ⟨by decide, by decide, @C4_prompt_acceptance "ok" (by decide) (by decide)⟩

/-- C7: `validateImageGenerationParams` defaults `n` to 1 when absent; a string
`n` is coerced through `parseInt`; every supplied value that is not
integer-coercible is rejected with field `n`; every integer outside the
resolved model's range is rejected with field `n`; `n = 2` fails for dall-e-3
and succeeds (with `n = 2`) for dall-e-2. -/
theorem C7_n_validation :
    (∀ params v, getField params "n" = JSValue.undefined →
        validateImageGenerationParams params = .ok v → v.n = 1) ∧
    (∀ s m, validateN (JSValue.str s) m =
        (match jsParseInt s with
         | some i => validateN (JSValue.intNum i) m
         | none => .error ⟨"n must be an integer", "n"⟩)) ∧
    (∀ w m, w ≠ JSValue.undefined → w ≠ JSValue.null → intCoercible w = false →
        validateN w m = .error ⟨"n must be an integer", "n"⟩) ∧
    (∀ i : Int, (i < 1 ∨ i > 10) →
        validateN (JSValue.intNum i) "dall-e-2" =
          .error ⟨"n is out of range for this model", "n"⟩) ∧
    (∀ i : Int, i ≠ 1 →
        validateN (JSValue.intNum i) "dall-e-3" =
          .error ⟨"n is out of range for this model", "n"⟩) ∧
    (∃ e, validateImageGenerationParams
        [("prompt", JSValue.str "x"), ("model", JSValue.str "dall-e-3"),
         ("n", JSValue.intNum 2)] = .error e ∧ e.field = "n") ∧
    (∃ v, validateImageGenerationParams
        [("prompt", JSValue.str "x"), ("model", JSValue.str "dall-e-2"),
         ("n", JSValue.intNum 2)] = .ok v ∧ v.n = 2) := by
  refine ⟨?_, ?_, ?_, ?_, ?_, ⟨⟨"n is out of range for this model", "n"⟩, rfl, rfl⟩,
          ⟨_, rfl, rfl⟩⟩
  · intro params v hund h
    obtain ⟨_, _, _, _, hn, _, _, _⟩ := validateParams_ok_inv h
    rw [hund] at hn
    have h1 : validateN JSValue.undefined v.model = .ok 1 := rfl
    rw [h1] at hn
    exact (Except.ok.injEq _ _).mp hn.symm |>.symm ▸ rfl
  · intro s m
    cases hp : jsParseInt s <;> simp [validateN, hp]
  · intro w m hu hn hc
    cases w <;> simp_all [validateN, intCoercible]
  · intro i hrange
    simp [validateN, nModelConstraints]
    omega
  · intro i hne
    simp [validateN, nModelConstraints]
    omega

/-- Witness for C7: concrete instances of each hypothesis-bearing conjunct. -/
theorem C7_n_validation_witness :
    ({ prompt := "x", model := "dall-e-3", size := "1024x1024", quality := "standard",
       n := 1, style := some "vivid", save := none,
       response_format := none } : ValidatedParams).n = 1 ∧
    validateN (JSValue.str "7") "dall-e-2" =
      (match jsParseInt "7" with
       | some i => validateN (JSValue.intNum i) "dall-e-2"
       | none => .error ⟨"n must be an integer", "n"⟩) ∧
    validateN (JSValue.boolean true) "dall-e-2" = .error ⟨"n must be an integer", "n"⟩ ∧
    validateN (JSValue.intNum 11) "dall-e-2" =
      .error ⟨"n is out of range for this model", "n"⟩ ∧
    validateN (JSValue.intNum 2) "dall-e-3" =
      .error ⟨"n is out of range for this model", "n"⟩ :=
  ⟨C7_n_validation.1 [("prompt", JSValue.str "x")]
      { prompt := "x", model := "dall-e-3", size := "1024x1024", quality := "standard",
        n := 1, style := some "vivid", save := none, response_format := none } rfl rfl,
   C7_n_validation.2.1 "7" "dall-e-2",
   C7_n_validation.2.2.1 (JSValue.boolean true) "dall-e-2" (by decide) (by decide) (by decide),
   C7_n_validation.2.2.2.1 11 (Or.inr (by decide)),
   C7_n_validation.2.2.2.2.1 2 (by decide)⟩

/-- C8: for dall-e-2 any supplied style is silently dropped (never an error,
and the result has no style field); for dall-e-3 the style defaults to
`vivid`, and a supplied style must be `vivid` or `natural`, otherwise
validation fails with field `style`. -/
theorem C8_style_handling :
    (∀ w : JSValue, validateStyle w "dall-e-2" = .ok none) ∧
    validateStyle JSValue.undefined "dall-e-3" = .ok (some "vivid") ∧
    (∀ s : String, s ≠ "" →
        ((s = "vivid" ∨ s = "natural") →
            validateStyle (JSValue.str s) "dall-e-3" = .ok (some s)) ∧
        (¬(s = "vivid" ∨ s = "natural") →
            ∃ e, validateStyle (JSValue.str s) "dall-e-3" = .error e ∧ e.field = "style")) ∧
    validateImageGenerationParams
        [("prompt", JSValue.str "x"), ("model", JSValue.str "dall-e-2"),
         ("style", JSValue.str "vivid")] =
      .ok { prompt := "x", model := "dall-e-2", size := "1024x1024", quality := "standard",
            n := 1, style := none, save := none, response_format := none } ∧
    (∀ params v, validateImageGenerationParams params = .ok v → v.model = "dall-e-2" →
        v.style = none) := by
  refine ⟨fun w => rfl, rfl, ?_, rfl, ?_⟩
  · intro s hne
    constructor
    · rintro (h | h) <;> subst h <;> rfl
    · intro hnot
      refine ⟨⟨"Style must be one of: vivid, natural", "style"⟩, ?_, rfl⟩
      simp [validateStyle, styleModelConstraints, truthy, hne, hnot]
  · intro params v h h2
    obtain ⟨_, _, _, _, _, hst, _, _⟩ := validateParams_ok_inv h
    exact (validateStyle_ok hst).1 h2

/-- Witness for C8: concrete instances of the hypothesis-bearing conjuncts. -/
theorem C8_style_handling_witness :
    validateStyle (JSValue.str "natural") "dall-e-3" = .ok (some "natural") ∧
    (∃ e, validateStyle (JSValue.str "bold") "dall-e-3" = .error e ∧ e.field = "style") ∧
    ({ prompt := "x", model := "dall-e-2", size := "1024x1024", quality := "standard",
       n := 1, style := none, save := none,
       response_format := none } : ValidatedParams).style = none :=
  ⟨(C8_style_handling.2.2.1 "natural" (by decide)).1 (Or.inr rfl),
   (C8_style_handling.2.2.1 "bold" (by decide)).2 (by decide),
   C8_style_handling.2.2.2.2
     [("prompt", JSValue.str "x"), ("model", JSValue.str "dall-e-2"),
      ("style", JSValue.str "vivid")]
     { prompt := "x", model := "dall-e-2", size := "1024x1024", quality := "standard",
       n := 1, style := none, save := none, response_format := none } rfl rfl⟩

/-- C9: a supplied `save` is coerced with JS truthiness, so the literal string
`"false"` comes out as boolean `true`: every request carrying
`save = "false"` that validates successfully yields `save = some true`. -/
theorem C9_save_string_false {params : RawParams} {v : ValidatedParams}
    (hsave : getField params "save" = JSValue.str "false")
    (h : validateImageGenerationParams params = .ok v) : v.save = some true := by
  obtain ⟨_, _, _, _, _, _, hsv, _⟩ := validateParams_ok_inv h
  rw [hsv, hsave]
  rfl

/-- Witness for C9 at a concrete request carrying `save = "false"`. -/
theorem C9_save_string_false_witness :
    getField [("prompt", JSValue.str "x"), ("save", JSValue.str "false")] "save" =
      JSValue.str "false" ∧
    validateImageGenerationParams [("prompt", JSValue.str "x"), ("save", JSValue.str "false")] =
      .ok { prompt := "x", model := "dall-e-3", size := "1024x1024", quality := "standard",
            n := 1, style := some "vivid", save := some true, response_format := none } ∧
    ({ prompt := "x", model := "dall-e-3", size := "1024x1024", quality := "standard",
       n := 1, style := some "vivid", save := some true,
       response_format := none } : ValidatedParams).save = some true :=
  ⟨rfl, rfl,
   @C9_save_string_false [("prompt", JSValue.str "x"), ("save", JSValue.str "false")]
     { prompt := "x", model := "dall-e-3", size := "1024x1024", quality := "standard",
       n := 1, style := some "vivid", save := some true, response_format := none } rfl rfl⟩

theorem mem_keysOf {v : ValidatedParams} {k : String} :
    k ∈ keysOf v ↔ (k = "prompt" ∨ k = "model" ∨ k = "size" ∨ k = "quality" ∨ k = "n" ∨
      (k = "style" ∧ v.style.isSome = true) ∨ (k = "save" ∧ v.save.isSome = true) ∨
      (k = "response_format" ∧ v.response_format.isSome = true)) := by
  unfold keysOf
  split_ifs <;> simp_all

/-- C10: a successful validation result carries exactly the documented keys:
the five unconditional fields are always present, `style` is present exactly
for dall-e-3, `save` and `response_format` exactly when supplied, and no
other key of the raw request ever reaches the output. -/
theorem C10_output_shape :
    ∀ params v, validateImageGenerationParams params = .ok v →
      (∀ k, k ∈ keysOf v →
          k ∈ ["prompt", "model", "size", "quality", "n", "style", "save",
               "response_format"]) ∧
      "prompt" ∈ keysOf v ∧ "model" ∈ keysOf v ∧ "size" ∈ keysOf v ∧
      "quality" ∈ keysOf v ∧ "n" ∈ keysOf v ∧
      ("style" ∈ keysOf v ↔ v.model = "dall-e-3") ∧
      ("save" ∈ keysOf v ↔ getField params "save" ≠ JSValue.undefined) ∧
      ("response_format" ∈ keysOf v ↔ getField params "response_format" ≠ JSValue.undefined) ∧
      (∀ k, k ∉ (["prompt", "model", "size", "quality", "n", "style", "save",
          "response_format"] : List String) → k ∉ keysOf v) := by
  intro params v h
  obtain ⟨hp, hm, hs, hq, hn, hst, hsv, hrf⟩ := validateParams_ok_inv h
  have hmm := validateModel_ok hm
  have hstst := validateStyle_ok hst
  have hstyle : v.style.isSome = true ↔ v.model = "dall-e-3" := by
    rcases hmm with h2 | h3
    · rw [hstst.1 h2, h2]; simp
    · rcases hstst.2 h3 with hv | hv <;> rw [hv, h3] <;> simp
  have hsave : v.save.isSome = true ↔ getField params "save" ≠ JSValue.undefined := by
    rw [hsv]; cases getField params "save" <;> simp [saveOf]
  have hrf2 : v.response_format.isSome = true ↔
      getField params "response_format" ≠ JSValue.undefined := by
    rcases hrf with ⟨h1, h2⟩ | ⟨s, h1, _, h2⟩ <;> rw [h1, h2] <;> simp
  refine ⟨?_, ?_, ?_, ?_, ?_, ?_, ?_, ?_, ?_, ?_⟩
  · intro k hk
    rw [mem_keysOf] at hk
    rcases hk with h | h | h | h | h | ⟨h, _⟩ | ⟨h, _⟩ | ⟨h, _⟩ <;> subst h <;> decide
  · exact mem_keysOf.mpr (Or.inl rfl)
  · exact mem_keysOf.mpr (Or.inr (Or.inl rfl))
  · exact mem_keysOf.mpr (Or.inr (Or.inr (Or.inl rfl)))
  · exact mem_keysOf.mpr (Or.inr (Or.inr (Or.inr (Or.inl rfl))))
  · exact mem_keysOf.mpr (Or.inr (Or.inr (Or.inr (Or.inr (Or.inl rfl)))))
  · rw [mem_keysOf, ← hstyle]; simp
  · rw [mem_keysOf, ← hsave]; simp
  · rw [mem_keysOf, ← hrf2]; simp
  · intro k hk hk2
    rw [mem_keysOf] at hk2
    rcases hk2 with h | h | h | h | h | ⟨h, _⟩ | ⟨h, _⟩ | ⟨h, _⟩ <;> subst h <;>
      exact hk (by decide)

/-- Witness for C10 at a concrete request that also carries an unknown key. -/
theorem C10_output_shape_witness :
    ("style" ∈ keysOf ({ prompt := "x", model := "dall-e-3", size := "1024x1024", quality := "standard", n := 1, style := some "vivid", save := some false, response_format := none } : ValidatedParams) ↔
      ({ prompt := "x", model := "dall-e-3", size := "1024x1024", quality := "standard", n := 1, style := some "vivid", save := some false, response_format := none } : ValidatedParams).model = "dall-e-3") ∧
    ("save" ∈ keysOf ({ prompt := "x", model := "dall-e-3", size := "1024x1024", quality := "standard", n := 1, style := some "vivid", save := some false, response_format := none } : ValidatedParams) ↔
      getField [("prompt", JSValue.str "x"), ("save", JSValue.boolean false), ("junk", JSValue.str "z")] "save" ≠ JSValue.undefined) ∧
    "junk" ∉ keysOf ({ prompt := "x", model := "dall-e-3", size := "1024x1024", quality := "standard", n := 1, style := some "vivid", save := some false, response_format := none } : ValidatedParams) :=
  ⟨(C10_output_shape [("prompt", JSValue.str "x"), ("save", JSValue.boolean false), ("junk", JSValue.str "z")]
      { prompt := "x", model := "dall-e-3", size := "1024x1024", quality := "standard", n := 1, style := some "vivid", save := some false, response_format := none } rfl).2.2.2.2.2.2.1,
   (C10_output_shape [("prompt", JSValue.str "x"), ("save", JSValue.boolean false), ("junk", JSValue.str "z")]
      { prompt := "x", model := "dall-e-3", size := "1024x1024", quality := "standard", n := 1, style := some "vivid", save := some false, response_format := none } rfl).2.2.2.2.2.2.2.1,
   (C10_output_shape [("prompt", JSValue.str "x"), ("save", JSValue.boolean false), ("junk", JSValue.str "z")]
      { prompt := "x", model := "dall-e-3", size := "1024x1024", quality := "standard", n := 1, style := some "vivid", save := some false, response_format := none } rfl).2.2.2.2.2.2.2.2.2 "junk" (by decide)⟩

theorem orderedInsertFile_perm (f : FileRec) (l : List FileRec) :
    (orderedInsertFile f l).Perm (f :: l) := by
  induction l with
  | nil => exact List.Perm.refl _
  | cons g gs ih =>
    unfold orderedInsertFile
    split
    · exact List.Perm.refl _
    · exact (List.Perm.cons g ih).trans (List.Perm.swap f g gs)

theorem sortByModified_perm (l : List FileRec) : (sortByModified l).Perm l := by
  induction l with
  | nil => exact List.Perm.refl _
  | cons f fs ih =>
    exact (orderedInsertFile_perm f (sortByModified fs)).trans (List.Perm.cons f ih)

theorem mem_orderedInsertFile {x f : FileRec} {l : List FileRec} :
    x ∈ orderedInsertFile f l ↔ x = f ∨ x ∈ l := by
  rw [(orderedInsertFile_perm f l).mem_iff, List.mem_cons]

theorem pairwise_orderedInsertFile {f : FileRec} {l : List FileRec}
    (h : l.Pairwise (fun a b => a.modified ≤ b.modified)) :
    (orderedInsertFile f l).Pairwise (fun a b => a.modified ≤ b.modified) := by
  induction l with
  | nil => simp [orderedInsertFile]
  | cons g gs ih =>
    unfold orderedInsertFile
    rcases List.pairwise_cons.mp h with ⟨hg, hgs⟩
    split
    · rename_i hle
      refine List.pairwise_cons.mpr ⟨?_, h⟩
      intro b hb
      rcases List.mem_cons.mp hb with hb | hb
      · exact hb ▸ hle
      · exact le_trans hle (hg b hb)
    · rename_i hgt
      refine List.pairwise_cons.mpr ⟨?_, ih hgs⟩
      intro b hb
      rcases mem_orderedInsertFile.mp hb with hb | hb
      · exact hb ▸ le_of_not_le hgt
      · exact hg b hb

theorem sortByModified_sorted (l : List FileRec) :
    (sortByModified l).Pairwise (fun a b => a.modified ≤ b.modified) := by
  induction l with
  | nil => simp [sortByModified]
  | cons f fs ih => exact pairwise_orderedInsertFile ih

/-- C6: cleaning a directory that does not exist is a zero-effect success for
every policy: no error, nothing scanned, nothing deleted, no space freed. -/
theorem C6_nonexistent_directory (now : Int) (unlinkFails : String → Bool)
    (opts : CleanupOptions) :
    cleanupOldImages none now unlinkFails opts =
      ({ success := true, filesScanned := 0, filesDeleted := 0, spaceFreed := 0,
         errors := [], deletedFiles := [] }, none) := rfl

theorem addExcess_eq_append {acc cs : List FileRec} (h1 : ∀ c ∈ cs, c ∉ acc)
    (h2 : cs.Nodup) : addExcess acc cs = acc ++ cs := by
  induction cs generalizing acc with
  | nil => simp [addExcess]
  | cons c cs ih =>
    unfold addExcess
    rcases List.nodup_cons.mp h2 with ⟨hc, hcs⟩
    rw [if_neg (h1 c (List.mem_cons_self c cs))]
    have hnotin : ∀ d ∈ cs, d ∉ acc ++ [c] := by
      intro d hd
      simp only [List.mem_append, List.mem_singleton]
      rintro (hda | hdc)
      · exact h1 d (List.mem_cons_of_mem c hd) hda
      · exact hc (hdc ▸ hd)
    rw [ih hnotin hcs]
    simp

theorem foldl_deleteStep (dryRun : Bool) (now : Int) (fails : String → Bool)
    (l : List FileRec) (init : CleanupResult) :
    l.foldl (deleteStep dryRun now fails) init =
      { success := init.success,
        filesScanned := init.filesScanned,
        filesDeleted :=
          init.filesDeleted + (l.filter (fun f => !(!dryRun && fails f.name))).length,
        spaceFreed := init.spaceFreed +
          ((l.filter (fun f => !(!dryRun && fails f.name))).map (fun f => f.size)).sum,
        errors := init.errors ++
          (l.filter (fun f => !dryRun && fails f.name)).map
            (fun f => (f.name, "unlink failed")),
        deletedFiles := init.deletedFiles ++
          (l.filter (fun f => !(!dryRun && fails f.name))).map
            (fun f => (f.name, f.size, ageOf now f)) } := by
  induction l generalizing init with
  | nil => simp
  | cons f fs ih =>
    rw [List.foldl_cons, ih]
    cases hd : dryRun <;> cases hf : fails f.name <;>
      simp_all [deleteStep, List.filter_cons, List.append_assoc] <;> omega

theorem selectFilesToDelete_eq {L : List FileRec} {now : Int} {ret mf : Nat}
    (hnd : L.Nodup) :
    selectFilesToDelete L now ret (some mf) =
      L.filter (fun f => decide (ageOf now f > (ret : Int))) ++
      (if L.length > mf then
        (L.filter (fun f =>
          decide (f ∉ L.filter (fun g => decide (ageOf now g > (ret : Int)))))).take
            (L.length - mf)
       else []) := by
  simp only [selectFilesToDelete]
  by_cases hlen : L.length > mf
  · rw [if_pos hlen, if_pos hlen]
    rw [addExcess_eq_append]
    · intro c hc
      have hc2 := List.take_subset _ _ hc
      exact of_decide_eq_true (List.mem_filter.mp hc2).2
    · exact (List.take_sublist _ _).nodup (hnd.filter _)
  · rw [if_neg hlen, if_neg hlen, List.append_nil]

/-- C2: the sweep sorts the scanned files by modification time ascending and
its deletion set is the union of (a) the files older than the retention
period and (b), when the max-file cap is set and exceeded, the oldest
excess files not already selected, with no file selected twice; in the
concrete scenario with `maxFiles = 2` and three files younger than retention
exactly the oldest file is deleted. -/
theorem C2_deletion_set (files : List FileRec) (now : Int) (ret mf : Nat)
    (hnd : files.Nodup) :
    (sortByModified files).Perm files ∧
    (sortByModified files).Pairwise (fun a b => a.modified ≤ b.modified) ∧
    selectFilesToDelete (sortByModified files) now ret none =
      (sortByModified files).filter (fun f => decide (ageOf now f > (ret : Int))) ∧
    selectFilesToDelete (sortByModified files) now ret (some mf) =
      (sortByModified files).filter (fun f => decide (ageOf now f > (ret : Int))) ++
      (if (sortByModified files).length > mf then
        ((sortByModified files).filter (fun f =>
          decide (f ∉ (sortByModified files).filter
            (fun g => decide (ageOf now g > (ret : Int)))))).take
              ((sortByModified files).length - mf)
       else []) ∧
    (selectFilesToDelete (sortByModified files) now ret (some mf)).Nodup ∧
    cleanupOldImages
        (some [⟨"b.png", 200, 2000⟩, ⟨"a.png", 100, 1000⟩, ⟨"c.png", 300, 3000⟩])
        100000 (fun _ => false) { maxFiles := some 2 } =
      ({ success := true, filesScanned := 3, filesDeleted := 1, spaceFreed := 100,
         errors := [], deletedFiles := [("a.png", 100, 99000)] },
       some [⟨"b.png", 200, 2000⟩, ⟨"c.png", 300, 3000⟩]) := by
  have hsnd : (sortByModified files).Nodup := (sortByModified_perm files).symm.nodup hnd
  refine ⟨sortByModified_perm files, sortByModified_sorted files, rfl,
          selectFilesToDelete_eq hsnd, ?_, rfl⟩
  rw [selectFilesToDelete_eq hsnd]
  refine List.Nodup.append (hsnd.filter _) ?_ ?_
  · split
    · exact (List.take_sublist _ _).nodup (hsnd.filter _)
    · exact List.nodup_nil
  · intro a ha hb
    split at hb
    · have hb2 := List.take_subset _ _ hb
      exact of_decide_eq_true (List.mem_filter.mp hb2).2 ha
    · exact (List.not_mem_nil a) hb

/-- Witness for C2 at the three-file scenario from the specification. -/
theorem C2_deletion_set_witness :
    ([⟨"b.png", 200, 2000⟩, ⟨"a.png", 100, 1000⟩,
      (⟨"c.png", 300, 3000⟩ : FileRec)] : List FileRec).Nodup ∧
    cleanupOldImages
        (some [⟨"b.png", 200, 2000⟩, ⟨"a.png", 100, 1000⟩, ⟨"c.png", 300, 3000⟩])
        100000 (fun _ => false) { maxFiles := some 2 } =
      ({ success := true, filesScanned := 3, filesDeleted := 1, spaceFreed := 100,
         errors := [], deletedFiles := [("a.png", 100, 99000)] },
       some [⟨"b.png", 200, 2000⟩, ⟨"c.png", 300, 3000⟩]) :=
  ⟨by decide,
   (C2_deletion_set
      [⟨"b.png", 200, 2000⟩, ⟨"a.png", 100, 1000⟩, ⟨"c.png", 300, 3000⟩]
      100000 604800000 2 (by decide)).2.2.2.2.2⟩

theorem cleanupOldImages_some_run (files : List FileRec) (now : Int)
    (fails : String → Bool) (opts : CleanupOptions) (hdry : opts.dryRun = false) :
    cleanupOldImages (some files) now fails opts =
      ({ success := (((selectFilesToDelete (sortByModified files) now (resolveRetentionMs opts.retentionMs) (resolveMaxFiles opts.maxFiles)).filter
             (fun f => fails f.name)).map (fun f => (f.name, "unlink failed"))).isEmpty,
         filesScanned := (sortByModified files).length,
         filesDeleted := ((selectFilesToDelete (sortByModified files) now (resolveRetentionMs opts.retentionMs) (resolveMaxFiles opts.maxFiles)).filter (fun f => !fails f.name)).length,
         spaceFreed := (((selectFilesToDelete (sortByModified files) now (resolveRetentionMs opts.retentionMs) (resolveMaxFiles opts.maxFiles)).filter
             (fun f => !fails f.name)).map (fun f => f.size)).sum,
         errors := ((selectFilesToDelete (sortByModified files) now (resolveRetentionMs opts.retentionMs) (resolveMaxFiles opts.maxFiles)).filter
             (fun f => fails f.name)).map (fun f => (f.name, "unlink failed")),
         deletedFiles := ((selectFilesToDelete (sortByModified files) now (resolveRetentionMs opts.retentionMs) (resolveMaxFiles opts.maxFiles)).filter
             (fun f => !fails f.name)).map (fun f => (f.name, f.size, ageOf now f)) },
       some (files.filter (fun f => decide (f.name ∉
         ((selectFilesToDelete (sortByModified files) now (resolveRetentionMs opts.retentionMs) (resolveMaxFiles opts.maxFiles)).filter (fun f => !fails f.name)).map (fun f => f.name))))) := by
  simp only [cleanupOldImages, hdry]
  rw [foldl_deleteStep]
  by_cases hE : (selectFilesToDelete (sortByModified files) now (resolveRetentionMs opts.retentionMs) (resolveMaxFiles opts.maxFiles)).filter (fun f => fails f.name) = []
  · simp [hE]
  · have hmap : ((selectFilesToDelete (sortByModified files) now (resolveRetentionMs opts.retentionMs) (resolveMaxFiles opts.maxFiles)).filter (fun f => fails f.name)).map
        (fun f => (f.name, "unlink failed")) ≠ [] := by
      simpa using hE
    simp [hE, hmap, List.length_pos]

/-- C5: per-file deletion failures never abort the sweep: every candidate the
filesystem lets go is still deleted, each failing candidate contributes
exactly one entry (its name) to `errors` and stays in the directory, nothing
is thrown, and `success` is false exactly when `errors` is non-empty. -/
theorem C5_failure_isolation (files : List FileRec) (now : Int)
    (fails : String → Bool) (opts : CleanupOptions) (hdry : opts.dryRun = false) :
    (cleanupOldImages (some files) now fails opts).1.filesDeleted =
      ((selectFilesToDelete (sortByModified files) now (resolveRetentionMs opts.retentionMs) (resolveMaxFiles opts.maxFiles)).filter (fun f => !fails f.name)).length ∧
    (cleanupOldImages (some files) now fails opts).1.errors =
      ((selectFilesToDelete (sortByModified files) now (resolveRetentionMs opts.retentionMs) (resolveMaxFiles opts.maxFiles)).filter (fun f => fails f.name)).map (fun f => (f.name, "unlink failed")) ∧
    ((cleanupOldImages (some files) now fails opts).1.success = false ↔
      (cleanupOldImages (some files) now fails opts).1.errors ≠ []) ∧
    (cleanupOldImages (some files) now fails opts).2 =
      some (files.filter (fun f => decide (f.name ∉
        ((selectFilesToDelete (sortByModified files) now (resolveRetentionMs opts.retentionMs) (resolveMaxFiles opts.maxFiles)).filter (fun f => !fails f.name)).map (fun f => f.name)))) ∧
    (∀ f ∈ files, fails f.name = true →
      ∃ rem, (cleanupOldImages (some files) now fails opts).2 = some rem ∧ f ∈ rem) := by
  rw [cleanupOldImages_some_run files now fails opts hdry]
  refine ⟨rfl, rfl, ?_, rfl, ?_⟩
  · show (List.isEmpty _ = false) ↔ _
    rw [List.isEmpty_eq_false]
  · intro f hf hfail
    refine ⟨_, rfl, ?_⟩
    rw [List.mem_filter]
    refine ⟨hf, ?_⟩
    rw [decide_eq_true_eq]
    intro hmem
    rcases List.mem_map.mp hmem with ⟨g, hg, hname⟩
    have hgf := (List.mem_filter.mp hg).2
    rw [hname] at hgf
    rw [hfail] at hgf
    simp at hgf

/-- Witness for C5: two expired files, deletion of `a.png` refused. -/
theorem C5_failure_isolation_witness :
    (cleanupOldImages (some [⟨"a.png", 100, 1000⟩, ⟨"b.png", 200, 2000⟩]) 700000000
        (fun nm => nm == "a.png") {}).1.filesDeleted = 1 ∧
    ((cleanupOldImages (some [⟨"a.png", 100, 1000⟩, ⟨"b.png", 200, 2000⟩]) 700000000
        (fun nm => nm == "a.png") {}).1.success = false ↔
      (cleanupOldImages (some [⟨"a.png", 100, 1000⟩, ⟨"b.png", 200, 2000⟩]) 700000000
        (fun nm => nm == "a.png") {}).1.errors ≠ []) ∧
    (∃ rem, (cleanupOldImages (some [⟨"a.png", 100, 1000⟩, ⟨"b.png", 200, 2000⟩]) 700000000
        (fun nm => nm == "a.png") {}).2 = some rem ∧ (⟨"a.png", 100, 1000⟩ : FileRec) ∈ rem) :=
  ⟨(C5_failure_isolation [⟨"a.png", 100, 1000⟩, ⟨"b.png", 200, 2000⟩] 700000000
      (fun nm => nm == "a.png") {} rfl).1,
   (C5_failure_isolation [⟨"a.png", 100, 1000⟩, ⟨"b.png", 200, 2000⟩] 700000000
      (fun nm => nm == "a.png") {} rfl).2.2.1,
   (C5_failure_isolation [⟨"a.png", 100, 1000⟩, ⟨"b.png", 200, 2000⟩] 700000000
      (fun nm => nm == "a.png") {} rfl).2.2.2.2 ⟨"a.png", 100, 1000⟩ (by decide) (by decide)⟩

/-- C3: a dry run leaves the directory untouched (every scanned file is still
present), and against the same directory state and policy, when the
filesystem refuses no deletion, it reports exactly the counts a real run
produces. -/
theorem C3_dry_run_equivalence (dir : Option (List FileRec)) (now : Int)
    (fails : String → Bool) (opts : CleanupOptions) :
    (cleanupOldImages dir now fails { opts with dryRun := true }).2 = dir ∧
    ((∀ nm, fails nm = false) →
      (cleanupOldImages dir now fails { opts with dryRun := true }).1.filesDeleted =
        (cleanupOldImages dir now fails { opts with dryRun := false }).1.filesDeleted ∧
      (cleanupOldImages dir now fails { opts with dryRun := true }).1.spaceFreed =
        (cleanupOldImages dir now fails { opts with dryRun := false }).1.spaceFreed) := by
  cases dir with
  | none => exact ⟨rfl, fun _ => ⟨rfl, rfl⟩⟩
  | some files =>
    constructor
    · simp [cleanupOldImages]
    · intro hfail
      simp only [cleanupOldImages]
      rw [foldl_deleteStep, foldl_deleteStep]
      simp [hfail]

/-- Witness for C3: dry run versus real run over two expired files. -/
theorem C3_dry_run_equivalence_witness :
    (cleanupOldImages (some [⟨"a.png", 100, 1000⟩, ⟨"b.png", 200, 2000⟩]) 700000000
        (fun _ => false) { retentionMs := none, dryRun := true, maxFiles := none }).2 =
      some [⟨"a.png", 100, 1000⟩, ⟨"b.png", 200, 2000⟩] ∧
    (cleanupOldImages (some [⟨"a.png", 100, 1000⟩, ⟨"b.png", 200, 2000⟩]) 700000000
        (fun _ => false) { retentionMs := none, dryRun := true, maxFiles := none }).1.filesDeleted =
      (cleanupOldImages (some [⟨"a.png", 100, 1000⟩, ⟨"b.png", 200, 2000⟩]) 700000000
        (fun _ => false) { retentionMs := none, dryRun := false, maxFiles := none }).1.filesDeleted ∧
    (cleanupOldImages (some [⟨"a.png", 100, 1000⟩, ⟨"b.png", 200, 2000⟩]) 700000000
        (fun _ => false) { retentionMs := none, dryRun := true, maxFiles := none }).1.spaceFreed =
      (cleanupOldImages (some [⟨"a.png", 100, 1000⟩, ⟨"b.png", 200, 2000⟩]) 700000000
        (fun _ => false) { retentionMs := none, dryRun := false, maxFiles := none }).1.spaceFreed :=
  ⟨(C3_dry_run_equivalence (some [⟨"a.png", 100, 1000⟩, ⟨"b.png", 200, 2000⟩]) 700000000
      (fun _ => false) {}).1,
   ((C3_dry_run_equivalence (some [⟨"a.png", 100, 1000⟩, ⟨"b.png", 200, 2000⟩]) 700000000
      (fun _ => false) {}).2 (fun _ => rfl)).1,
   ((C3_dry_run_equivalence (some [⟨"a.png", 100, 1000⟩, ⟨"b.png", 200, 2000⟩]) 700000000
      (fun _ => false) {}).2 (fun _ => rfl)).2⟩
